import Mathlib

/-!
Verification of the SOCKS VPN menu connection-lifecycle controller.

The Go program (main.go) is shallowly embedded: each subprocess invocation
(process-table query, socket-table query, spawn, kill, proxy toggle) becomes
an `Effect` value recorded in a trace, and the outcomes of those invocations
are supplied by an environment record, so the control flow of the Go
functions can be reproduced faithfully as pure Lean functions.
-/

namespace SOCKSVPNMenu

/-- SSH keepalive options, mirroring the Go struct `ServerOptions`
(fields `server_alive_interval`, `server_alive_count_max`). Go `int`
is modelled as `Int`. -/
structure ServerOptions where
  serverAliveInterval : Int
  serverAliveCountMax : Int
deriving Repr, DecidableEq

/-- A named VPN server entry, mirroring the Go struct `Command`
(fields `name`, `description`, `server`). -/
structure Command where
  name : String
  description : String
  server : String
deriving Repr, DecidableEq

/-- The VPN configuration, mirroring the Go struct `Config`
(fields `autossh_path`, `local_port`, `interface`, `server_options`,
`commands`). -/
structure Config where
  autoSSHPath : String
  localPort : Int
  interface : String
  serverOptions : ServerOptions
  commands : List Command
deriving Repr, DecidableEq

/-- One OS side effect issued by the controller: every `exec.Command`
invocation in `connectVPN` / `disconnectVPN` is recorded as one effect. -/
inductive Effect where
  /-- networksetup -setsocksfirewallproxystate iface off -/
  | proxyOff (iface : String)
  /-- pkill pattern (graceful termination request) -/
  | pkillTerm (pattern : String)
  /-- pgrep pattern (existence check after the graceful kill) -/
  | pgrepCheck (pattern : String)
  /-- pkill -9 pattern (forceful kill escalation) -/
  | pkill9 (pattern : String)
  /-- spawn of the supervisor binary at path with the given argument list -/
  | spawn (path : String) (args : List String)
  /-- networksetup -setsocksfirewallproxy iface host port -/
  | proxyOn (iface : String) (host : String) (port : Int)
deriving Repr, DecidableEq

/-- Result of running a subprocess with `cmd.Run()`: success, an
`exec.ExitError` carrying an exit status, or any other failure
(e.g. the binary was not found). -/
inductive RunResult where
  | ok
  | exit (code : Int)
  | failure
deriving Repr, DecidableEq

/-- Errors returned by `connectVPN` (the Go code wraps them in
`fmt.Errorf`; only their identity matters here). -/
inductive ErrKind where
  /-- command not found in configuration -/
  | commandNotFound
  /-- failed to start autossh -/
  | spawnFailed
  /-- failed to set SOCKS proxy -/
  | proxySetFailed
deriving Repr, DecidableEq

/-- Environment for connect/disconnect: the outcome of each subprocess
the controller may invoke, in program order. -/
structure Env where
  /-- does `networksetup ... off` succeed -/
  proxyOffOk : Bool
  /-- result of `pkill autossh` -/
  pkillOutcome : RunResult
  /-- does `pgrep autossh` succeed after the graceful kill
  (i.e. a matching process is still present) -/
  autosshStillPresent : Bool
  /-- does `pkill -9 autossh` succeed -/
  kill9Ok : Bool
  /-- does `cmd.Run()` on the autossh spawn succeed -/
  spawnOk : Bool
  /-- does `networksetup -setsocksfirewallproxy ...` succeed -/
  proxyOnOk : Bool
deriving Repr, DecidableEq

/-- Embedding of Go `disconnectVPN` (main.go lines 379-413). Returns the
trace of issued effects and the returned error. The proxy-off failure and
all kill failures are only logged in the Go code; an exit status of 1 from
`pkill` (no process matched) returns nil early, skipping the pgrep check
and the SIGKILL escalation. -/
def disconnectVPN (env : Env) (cfg : Config) : List Effect × Option ErrKind :=
  let t2 : List Effect := [Effect.proxyOff cfg.interface, Effect.pkillTerm "autossh"]
  match env.pkillOutcome with
  | RunResult.exit 1 => (t2, none)
  | _ =>
      let t3 := t2 ++ [Effect.pgrepCheck "autossh"]
      if env.autosshStillPresent then
        (t3 ++ [Effect.pkill9 "autossh"], none)
      else
        (t3, none)

/-- Linear scan of the command list for the first entry with the given
name, as the loop with `break` in Go `connectVPN` does. -/
def findCommand (cmds : List Command) (commandName : String) : Option Command :=
  match cmds with
  | [] => none
  | c :: rest => if c.name = commandName then some c else findCommand rest commandName

/-- The autossh argument list built by Go `connectVPN` (main.go lines
357-363): detach, multiplexing off, keepalive options, dynamic SOCKS
forward on localhost at the configured port, no remote command, target
server. -/
def autosshArgs (cfg : Config) (target : Command) : List String :=
  ["-f", "-M", "0",
   "-o", "ServerAliveInterval " ++ toString cfg.serverOptions.serverAliveInterval,
   "-o", "ServerAliveCountMax " ++ toString cfg.serverOptions.serverAliveCountMax,
   "-D", "localhost:" ++ toString cfg.localPort,
   "-N", target.server]

/-- Embedding of Go `connectVPN` (main.go lines 340-377): resolve the
profile (unknown name errors out with no side effect), disconnect, spawn
autossh, then enable the SOCKS proxy. A failed spawn returns before the
proxy command is invoked; a failed proxy command is still invoked (its
effect appears in the trace) and its failure is returned. -/
def connectVPN (env : Env) (cfg : Config) (commandName : String) :
    List Effect × Option ErrKind :=
  match findCommand cfg.commands commandName with
  | none => ([], some ErrKind.commandNotFound)
  | some target =>
      let d := disconnectVPN env cfg
      let spawnEff := Effect.spawn cfg.autoSSHPath (autosshArgs cfg target)
      if env.spawnOk then
        let t := d.1 ++ [spawnEff, Effect.proxyOn cfg.interface "127.0.0.1" cfg.localPort]
        if env.proxyOnOk then (t, none) else (t, some ErrKind.proxySetFailed)
      else
        (d.1 ++ [spawnEff], some ErrKind.spawnFailed)

/-- ASCII whitespace, the characters trimmed by Go `strings.TrimSpace`
on the outputs handled here. -/
def isSpaceChar (c : Char) : Bool :=
  c == ' ' || c == '\t' || c == '\n' || c == '\r' || c == '\x0B' || c == '\x0C'

/-- Trim leading and trailing whitespace, modelling Go `strings.TrimSpace`. -/
def trimStr (s : String) : String :=
  (((s.data.dropWhile isSpaceChar).reverse.dropWhile isSpaceChar).reverse).asString

/-- Split a character list on every occurrence of a separator character. -/
def splitOnChar (sep : Char) : List Char → List (List Char)
  | [] => [[]]
  | c :: rest =>
      let r := splitOnChar sep rest
      if c == sep then [] :: r
      else (c :: r.headD []) :: r.tail

/-- Split a string into lines, modelling Go
`strings.Split(text, "\n")`. -/
def splitLines (s : String) : List String :=
  (splitOnChar '\n' s.data).map List.asString

/-- Lowercase every character, modelling Go `strings.ToLower` on the
ASCII process-table output handled here. -/
def lowerStr (s : String) : String :=
  (s.data.map Char.toLower).asString

/-- Does the first list occur as a prefix of the second. -/
def prefixMatch : List Char → List Char → Bool
  | [], _ => true
  | _ :: _, [] => false
  | a :: as, b :: bs => (a = b) && prefixMatch as bs

/-- Does the first list occur as a contiguous infix of the second. -/
def containsList (pat : List Char) : List Char → Bool
  | [] => prefixMatch pat []
  | c :: rest => prefixMatch pat (c :: rest) || containsList pat rest

/-- Substring containment, modelling Go `strings.Contains`. -/
def containsStr (s pat : String) : Bool :=
  containsList pat.toList s.toList

/-- Environment for the connection probe: outputs of the three OS
queries made by `isVPNConnected`. -/
structure ProbeEnv where
  /-- does `pgrep -f "autossh.*-D.*localhost"` exit successfully -/
  pgrepDOk : Bool
  /-- its captured standard output -/
  pgrepDOutput : String
  /-- does `pgrep autossh` exit successfully -/
  pgrep2Ok : Bool
  /-- does `lsof -nP -iTCP:port -sTCP:LISTEN` exit successfully -/
  lsofOk : Bool
  /-- its captured standard output -/
  lsofOutput : String
deriving Repr, DecidableEq

/-- Embedding of Go `isVPNConnected` (main.go lines 291-338): first a
process-table query for the full autossh signature, then for any autossh
process, then (only when a configuration is present with a positive local
port) a socket-table query; the lsof output is trimmed, split into lines,
the header skipped, and each remaining line searched for "autossh" or
"ssh" after lowercasing. -/
def isVPNConnected (env : ProbeEnv) (config : Option Config) : Bool :=
  if env.pgrepDOk && trimStr env.pgrepDOutput != "" then
    true
  else if env.pgrep2Ok then
    true
  else
    match config with
    | some cfg =>
        if cfg.localPort > 0 then
          if env.lsofOk && trimStr env.lsofOutput != "" then
            let text := trimStr env.lsofOutput
            let lines := splitLines text
            if lines.length > 1 then
              (lines.drop 1).any (fun ln =>
                containsStr (lowerStr ln) "autossh" || containsStr (lowerStr ln) "ssh")
            else
              false
          else
            false
        else
          false
    | none => false

/-- The COMMAND column of an lsof output line: its first
whitespace-separated field. Used to state what "the owning process" of a
listener is. -/
def ownerField (line : String) : String :=
  ((line.data.dropWhile isSpaceChar).takeWhile (fun c => !(isSpaceChar c))).asString

/-- Whether a process name is in the ssh family (contains "ssh" or
"autossh" after lowercasing), the match the probe is documented to apply
to the COMMAND column. -/
def sshFamily (procName : String) : Bool :=
  containsStr (lowerStr procName) "autossh" || containsStr (lowerStr procName) "ssh"

/-- Content of the configuration file at `~/.vpn.json`: absent
(unreadable), present but not valid JSON, or parsed into a `Config`
(absent JSON fields become Go zero values). -/
inductive FileContent where
  | absent
  | malformed
  | parsed (c : Config)
deriving Repr, DecidableEq

/-- Errors returned by `loadConfig`. -/
inductive LoadErr where
  /-- failed to read config file -/
  | readFailed
  /-- failed to parse config file -/
  | parseFailed
deriving Repr, DecidableEq

/-- The defaulting pass of Go `loadConfig` (main.go lines 271-286): each
zero-valued optional field is independently replaced by its default. -/
def applyDefaults (c : Config) : Config :=
  { c with
    autoSSHPath := if c.autoSSHPath = "" then "/opt/homebrew/bin/autossh" else c.autoSSHPath,
    localPort := if c.localPort = 0 then 1234 else c.localPort,
    interface := if c.interface = "" then "Wi-Fi" else c.interface,
    serverOptions :=
      { serverAliveInterval :=
          if c.serverOptions.serverAliveInterval = 0 then 10
          else c.serverOptions.serverAliveInterval,
        serverAliveCountMax :=
          if c.serverOptions.serverAliveCountMax = 0 then 3
          else c.serverOptions.serverAliveCountMax } }

/-- Embedding of Go `loadConfig` (main.go lines 254-289): read the file,
parse it, apply defaults. -/
def loadConfig (file : FileContent) : Except LoadErr Config :=
  match file with
  | FileContent.absent => Except.error LoadErr.readFailed
  | FileContent.malformed => Except.error LoadErr.parseFailed
  | FileContent.parsed c => Except.ok (applyDefaults c)

/-- The template configuration written by Go `createDummyConfig`
(main.go lines 502-518). -/
def dummyConfig : Config :=
  { autoSSHPath := "/opt/homebrew/bin/autossh",
    localPort := 1234,
    interface := "Wi-Fi",
    serverOptions := { serverAliveInterval := 10, serverAliveCountMax := 3 },
    commands := [{ name := "example",
                   description := "Example VPN Server",
                   server := "your-server-name-or-ip" }] }

/-- Embedding of Go `createDummyConfig` (main.go lines 502-532): write the
marshalled template to the configuration path. Marshalling then
unmarshalling a full `Config` is the identity, so the written file parses
back to `dummyConfig`. -/
def createDummyConfig (_file : FileContent) : FileContent :=
  FileContent.parsed dummyConfig

/-- Embedding of Go `reloadConfiguration` (main.go lines 567-582): reload
from file; on error keep the current configuration, on success replace
it. -/
def reloadConfiguration (current : Option Config) (file : FileContent) : Option Config :=
  match loadConfig file with
  | Except.error _ => current
  | Except.ok c => some c

/-! Concrete inputs used by witnesses and counterexamples. -/

/-- The profile of the specification scenario. -/
def officeCommand : Command :=
  { name := "office", description := "Office VPN", server := "office.example.com" }

/-- The configuration of the specification scenario. -/
def cfgOffice : Config :=
  { autoSSHPath := "/opt/homebrew/bin/autossh",
    localPort := 1234,
    interface := "Wi-Fi",
    serverOptions := { serverAliveInterval := 10, serverAliveCountMax := 3 },
    commands := [officeCommand] }

/-- An environment in which every subprocess succeeds. -/
def envOk : Env :=
  { proxyOffOk := true, pkillOutcome := RunResult.ok, autosshStillPresent := false,
    kill9Ok := true, spawnOk := true, proxyOnOk := true }

/-- An environment in which disabling the SOCKS proxy fails and everything
else succeeds. -/
def envProxyFail : Env :=
  { proxyOffOk := false, pkillOutcome := RunResult.ok, autosshStillPresent := false,
    kill9Ok := true, spawnOk := true, proxyOnOk := true }

/-- An environment in which `pkill autossh` exits with status 1: no
matching process existed. -/
def envNoProcess : Env :=
  { proxyOffOk := true, pkillOutcome := RunResult.exit 1, autosshStillPresent := false,
    kill9Ok := true, spawnOk := true, proxyOnOk := true }

/-- A parsed configuration whose optional fields are all Go zero values
(the parse of a file whose `server_options` object is empty and whose
`local_port` and `interface` are missing). -/
def zeroConfig : Config :=
  { autoSSHPath := "", localPort := 0, interface := "",
    serverOptions := { serverAliveInterval := 0, serverAliveCountMax := 0 },
    commands := [] }

/-- A parsed configuration whose local port lies outside 1-65535. -/
def badPortConfig : Config :=
  { autoSSHPath := "/opt/homebrew/bin/autossh", localPort := 70000, interface := "Wi-Fi",
    serverOptions := { serverAliveInterval := 10, serverAliveCountMax := 3 },
    commands := [] }

/-- A configuration whose local port is zero, for the probe guard. -/
def cfgZeroPort : Config :=
  { autoSSHPath := "/opt/homebrew/bin/autossh", localPort := 0, interface := "Wi-Fi",
    serverOptions := { serverAliveInterval := 10, serverAliveCountMax := 3 },
    commands := [] }

/-- Probe environment where both process-table queries fail and lsof
reports a listener on the configured port whose owning process (COMMAND
column) is `python3` — but whose USER column contains the substring
"ssh". -/
def env5 : ProbeEnv :=
  { pgrepDOk := false, pgrepDOutput := "", pgrep2Ok := false, lsofOk := true,
    lsofOutput := "COMMAND   PID     USER   FD   TYPE  DEVICE NODE NAME\npython3   500 sshadmin   3u  IPv4  0x0 TCP 127.0.0.1:1234 (LISTEN)" }

/-- The configuration paired with `env5`: local port 1234. -/
def cfg5 : Config :=
  { autoSSHPath := "/opt/homebrew/bin/autossh", localPort := 1234, interface := "Wi-Fi",
    serverOptions := { serverAliveInterval := 10, serverAliveCountMax := 3 },
    commands := [] }

/-- Probe environment where both process-table queries fail; the lsof
fields are arbitrary values, which the guard theorems show are ignored. -/
def envGuard : ProbeEnv :=
  { pgrepDOk := false, pgrepDOutput := "", pgrep2Ok := false, lsofOk := true,
    lsofOutput := "garbage" }

/-! Helper lemmas. -/

/-- When both process-table queries fail and the configuration is absent
or has a non-positive local port, the probe reports disconnected. -/
theorem isVPNConnected_guard_aux (env : ProbeEnv) (config : Option Config)
    (h1 : env.pgrepDOk = false ∨ trimStr env.pgrepDOutput = "")
    (h2 : env.pgrep2Ok = false)
    (h3 : config = none ∨ ∃ cfg, config = some cfg ∧ cfg.localPort ≤ 0) :
    isVPNConnected env config = false := by
  have hc1 : (env.pgrepDOk && (trimStr env.pgrepDOutput != "")) = false := by
    rcases h1 with h | h <;> simp [h]
  rcases h3 with h3 | ⟨cfg, hcfg, hle⟩
  · subst h3; simp [isVPNConnected, hc1, h2]
  · subst hcfg
    simp [isVPNConnected, hc1, h2, not_lt.mpr hle]

/-! Theorems settling the claims. -/

/-- C1: for every configuration containing a profile with the requested
name, Connect(name) resolves the profile, performs a full Disconnect,
spawns the supervisor with multiplexing disabled, the configured
keepalive options, a dynamic SOCKS forward on localhost at the configured
port, no remote command, targeting the profile's server, and finally
invokes the OS SOCKS proxy enable for the configured interface at
127.0.0.1:port — in exactly that order (stated on the success path of the
spawn; the proxy-enable invocation appears whether or not it succeeds). -/
theorem connectVPN_order (env : Env) (cfg : Config) (commandName : String)
    (target : Command)
    (hfind : findCommand cfg.commands commandName = some target)
    (hspawn : env.spawnOk = true) :
    (connectVPN env cfg commandName).1 =
      (disconnectVPN env cfg).1 ++
        [Effect.spawn cfg.autoSSHPath
          ["-f", "-M", "0",
           "-o", "ServerAliveInterval " ++ toString cfg.serverOptions.serverAliveInterval,
           "-o", "ServerAliveCountMax " ++ toString cfg.serverOptions.serverAliveCountMax,
           "-D", "localhost:" ++ toString cfg.localPort,
           "-N", target.server],
         Effect.proxyOn cfg.interface "127.0.0.1" cfg.localPort] := by
  simp only [connectVPN, hfind, hspawn, autosshArgs, if_true]
  cases env.proxyOnOk <;> simp

/-- Witness for C1 at the specification scenario: connecting to "office"
issues the disconnect sequence, then the spawn with the documented
argument list, then the proxy enable for Wi-Fi at 127.0.0.1:1234. -/
theorem connectVPN_order_witness :
    (connectVPN envOk cfgOffice "office").1 =
      (disconnectVPN envOk cfgOffice).1 ++
        [Effect.spawn "/opt/homebrew/bin/autossh"
          ["-f", "-M", "0", "-o", "ServerAliveInterval 10", "-o", "ServerAliveCountMax 3",
           "-D", "localhost:1234", "-N", "office.example.com"],
         Effect.proxyOn "Wi-Fi" "127.0.0.1" 1234] := by
  exact connectVPN_order envOk cfgOffice "office" officeCommand (by decide) rfl

/-- C2 counterexample: in an environment where disabling the SOCKS proxy
fails, Disconnect still returns no error, so "returns an error if and
only if disabling the proxy fails" is false at this input. -/
theorem disconnectVPN_error_iff_counterexample :
    ¬(((disconnectVPN envProxyFail cfgOffice).2.isSome = true) ↔
      envProxyFail.proxyOffOk = false) := by
  decide

/-- C2 amended: Disconnect never returns an error; proxy-disable failures
and process-kill failures are only logged. -/
theorem disconnectVPN_returns_no_error (env : Env) (cfg : Config) :
    (disconnectVPN env cfg).2 = none := by
  unfold disconnectVPN
  split
  · rfl
  · split <;> rfl

/-- C3: for a profile name not present in the configuration, Connect
returns the configuration error and issues no effect at all. -/
theorem connectVPN_unknown_no_effect (env : Env) (cfg : Config) (commandName : String)
    (hfind : findCommand cfg.commands commandName = none) :
    connectVPN env cfg commandName = ([], some ErrKind.commandNotFound) := by
  simp [connectVPN, hfind]

/-- Witness for C3: connecting to the unknown name "home" in the scenario
configuration errors out with an empty effect trace. -/
theorem connectVPN_unknown_no_effect_witness :
    connectVPN envOk cfgOffice "home" = ([], some ErrKind.commandNotFound) :=
  connectVPN_unknown_no_effect envOk cfgOffice "home" (by decide)

/-- C4: when the kill command reports that no matching process exists
(exit status 1), Disconnect returns success, having issued only the
proxy-disable and the graceful kill. -/
theorem disconnectVPN_idempotent (env : Env) (cfg : Config)
    (hpkill : env.pkillOutcome = RunResult.exit 1) :
    disconnectVPN env cfg =
      ([Effect.proxyOff cfg.interface, Effect.pkillTerm "autossh"], none) := by
  simp [disconnectVPN, hpkill]

/-- Witness for C4: disconnecting when pkill finds no process succeeds. -/
theorem disconnectVPN_idempotent_witness :
    disconnectVPN envNoProcess cfgOffice =
      ([Effect.proxyOff "Wi-Fi", Effect.pkillTerm "autossh"], none) := by
  exact disconnectVPN_idempotent envNoProcess cfgOffice rfl

/-- C5: a listening socket on the configured port owned by a non-ssh
process (COMMAND column `python3`) still makes the probe report Connected
when any other column of the lsof line contains "ssh" — the code searches
the whole line instead of the COMMAND column its own comment names, so a
listener owned by an unrelated process can produce a false positive. -/
theorem isVPNConnected_nonssh_listener_bug :
    env5.pgrepDOk = false ∧ env5.pgrep2Ok = false ∧ cfg5.localPort = 1234 ∧
    ((splitLines (trimStr env5.lsofOutput)).drop 1).all
      (fun ln => !(sshFamily (ownerField ln))) = true ∧
    isVPNConnected env5 (some cfg5) = true := by
  decide

/-- C6: load applies defaults to each optional field independently: a
zero value is replaced by the documented default and a nonzero value is
kept unchanged. -/
theorem loadConfig_defaults (c c' : Config)
    (h : loadConfig (FileContent.parsed c) = Except.ok c') :
    (c.serverOptions.serverAliveInterval = 0 → c'.serverOptions.serverAliveInterval = 10) ∧
    (c.serverOptions.serverAliveInterval ≠ 0 →
      c'.serverOptions.serverAliveInterval = c.serverOptions.serverAliveInterval) ∧
    (c.serverOptions.serverAliveCountMax = 0 → c'.serverOptions.serverAliveCountMax = 3) ∧
    (c.serverOptions.serverAliveCountMax ≠ 0 →
      c'.serverOptions.serverAliveCountMax = c.serverOptions.serverAliveCountMax) ∧
    (c.localPort = 0 → c'.localPort = 1234) ∧
    (c.localPort ≠ 0 → c'.localPort = c.localPort) ∧
    (c.interface = "" → c'.interface = "Wi-Fi") ∧
    (c.interface ≠ "" → c'.interface = c.interface) := by
  have hc : c' = applyDefaults c := by
    have h' := h
    simp only [loadConfig, Except.ok.injEq] at h'
    exact h'.symm
  subst hc
  refine ⟨?_, ?_, ?_, ?_, ?_, ?_, ?_, ?_⟩ <;> intro h0 <;> simp [applyDefaults, h0]

/-- Witness for C6: loading the all-zero parsed configuration yields the
documented defaults 10, 3, 1234, Wi-Fi. -/
theorem loadConfig_defaults_witness :
    (applyDefaults zeroConfig).serverOptions.serverAliveInterval = 10 ∧
    (applyDefaults zeroConfig).serverOptions.serverAliveCountMax = 3 ∧
    (applyDefaults zeroConfig).localPort = 1234 ∧
    (applyDefaults zeroConfig).interface = "Wi-Fi" := by
  have h := loadConfig_defaults zeroConfig (applyDefaults zeroConfig) rfl
  exact ⟨h.1 rfl, h.2.2.1 rfl, h.2.2.2.2.1 rfl, h.2.2.2.2.2.2.1 rfl⟩

/-- C7 counterexample: a parseable file with local_port 70000 loads
successfully and the returned port is 70000, outside 1-65535 — load does
not range-check the port. -/
theorem loadConfig_port_range_counterexample :
    loadConfig (FileContent.parsed badPortConfig) = Except.ok (applyDefaults badPortConfig) ∧
    (applyDefaults badPortConfig).localPort = 70000 ∧
    ¬((1 : Int) ≤ (applyDefaults badPortConfig).localPort ∧
      (applyDefaults badPortConfig).localPort ≤ 65535) :=
  ⟨rfl, by decide, by decide⟩

/-- C7 amended: every configuration successfully returned by load has a
nonzero local port (zero or missing is replaced by the default 1234; any
other value, in range or not, is returned unchanged). -/
theorem loadConfig_port_nonzero (file : FileContent) (c' : Config)
    (h : loadConfig file = Except.ok c') : c'.localPort ≠ 0 := by
  cases file with
  | absent => simp [loadConfig] at h
  | malformed => simp [loadConfig] at h
  | parsed c =>
      have hc : c' = applyDefaults c := by
        simp only [loadConfig, Except.ok.injEq] at h
        exact h.symm
      subst hc
      by_cases h0 : c.localPort = 0
      · simp [applyDefaults, h0]
      · simp [applyDefaults, h0]

/-- Witness for C7 amended: the loaded template configuration has a
nonzero port. -/
theorem loadConfig_port_nonzero_witness : dummyConfig.localPort ≠ 0 :=
  loadConfig_port_nonzero (FileContent.parsed dummyConfig) dummyConfig rfl

/-- C8: writing the default template where no configuration exists and
loading it back yields exactly one profile, named "example" with server
"your-server-name-or-ip". -/
theorem createDummy_load_roundtrip :
    loadConfig (createDummyConfig FileContent.absent) = Except.ok dummyConfig ∧
    dummyConfig.commands.length = 1 ∧
    dummyConfig.commands =
      [{ name := "example", description := "Example VPN Server",
         server := "your-server-name-or-ip" }] :=
  ⟨rfl, rfl, rfl⟩

/-- C9: when reloading fails (file unreadable or unparseable), the
previously active configuration snapshot is kept unchanged. -/
theorem reloadConfiguration_keeps_current (current : Option Config)
    (file : FileContent) (e : LoadErr)
    (h : loadConfig file = Except.error e) :
    reloadConfiguration current file = current := by
  simp [reloadConfiguration, h]

/-- Witness for C9: reloading from an absent file keeps the active
configuration. -/
theorem reloadConfiguration_keeps_current_witness :
    reloadConfiguration (some dummyConfig) FileContent.absent = some dummyConfig :=
  reloadConfiguration_keeps_current (some dummyConfig) FileContent.absent
    LoadErr.readFailed rfl

/-- C10: with no configuration or a non-positive configured port, after
the two process-table checks fail the probe returns Disconnected, and the
socket-table fallback is skipped entirely: the result does not depend on
the lsof outcome at all. -/
theorem isVPNConnected_guard (env : ProbeEnv) (config : Option Config)
    (h1 : env.pgrepDOk = false ∨ trimStr env.pgrepDOutput = "")
    (h2 : env.pgrep2Ok = false)
    (h3 : config = none ∨ ∃ cfg, config = some cfg ∧ cfg.localPort ≤ 0) :
    isVPNConnected env config = false ∧
    ∀ lsofOk lsofOutput,
      isVPNConnected { env with lsofOk := lsofOk, lsofOutput := lsofOutput } config = false := by
  refine ⟨isVPNConnected_guard_aux env config h1 h2 h3, fun lsofOk lsofOutput => ?_⟩
  exact isVPNConnected_guard_aux _ config h1 h2 h3

/-- Witness for C10: with a zero-port configuration and failing process
checks the probe reports disconnected. -/
theorem isVPNConnected_guard_witness :
    isVPNConnected envGuard (some cfgZeroPort) = false :=
  (isVPNConnected_guard envGuard (some cfgZeroPort) (Or.inl rfl) rfl
    (Or.inr ⟨cfgZeroPort, rfl, by decide⟩)).1

end SOCKSVPNMenu
